import Mathlib

/-!
# Verification of the bank-tool scraper

Shallow embedding of the two-stage bank scraper (`src/scrape.ts` and the
unnamed main module): the FDIC website resolver (`findBankWebsiteOnFDIC`),
the offer detector (`analyzeBankWebsiteForOffers`), the argument parser
(`getBankNameFromArgs`) and the top-level run with its try/catch/finally.

Browser effects are modelled by explicit environments describing the
outcome of each external interaction (navigation, waits, clicks, spawned
pages); a failing required wait is an `Except.error`, and optional
best-effort steps are `Option`-valued page transformers whose `none`
outcome mirrors a caught exception.
-/

namespace BankTool

/-- ASCII lowering, mirroring the effect of a case-insensitive (`/i`)
regex whose pattern letters are all ASCII: an uppercase ASCII letter is
folded to its lowercase form, every other character is left alone. -/
def asciiLower (c : Char) : Char :=
  if 0x41 ≤ c.toNat ∧ c.toNat ≤ 0x5a then Char.ofNat (c.toNat + 32) else c

/-- Lowercased character list of a string, the text a case-insensitive
regex test effectively runs over. -/
def lowerData (s : String) : List Char :=
  s.data.map asciiLower

/-- The character class `\s` of JavaScript regexes: ASCII whitespace
plus the Unicode space characters, by codepoint. -/
def isSpaceChar (c : Char) : Bool :=
  let n := c.toNat
  n = 0x20 || n = 0x09 || n = 0x0a || n = 0x0d || n = 0x0b || n = 0x0c ||
  n = 0xa0 || n = 0x1680 || (0x2000 <= n && n <= 0x200a) ||
  n = 0x2028 || n = 0x2029 || n = 0x202f || n = 0x205f ||
  n = 0x3000 || n = 0xfeff

/-- Here `stripPrefixCh pat cs` returns the remainder of `cs` after the literal
`pat`, or `none` when `pat` is not a prefix of `cs`. -/
def stripPrefixCh : List Char → List Char → Option (List Char)
  | [], cs => some cs
  | _ :: _, [] => none
  | p :: ps, c :: cs => if p = c then stripPrefixCh ps cs else none

/-- Matching `\s+` at the head of the input: requires at least one whitespace
character and consumes the maximal whitespace run.  (In `offerRegex` every
continuation after a `\s+` starts with a letter, so the greedy run is
equivalent to the backtracking semantics.) -/
def dropSpaces1 : List Char → Option (List Char)
  | [] => none
  | c :: cs => if isSpaceChar c then some (cs.dropWhile isSpaceChar) else none

/-- After `(apr|interest)`: the final alternative of `offerRegex`. -/
def aprOrInterest (cs : List Char) : Bool :=
  (stripPrefixCh "apr".data cs).isSome || (stripPrefixCh "interest".data cs).isSome

/-- The part of `offerRegex` following the `(0%|zero percent)` head:
`\s+(introductory\s+)?(apr|interest)` on lowercased text. -/
def offerTail (cs : List Char) : Bool :=
  match dropSpaces1 cs with
  | none => false
  | some cs1 =>
    aprOrInterest cs1 ||
    (match stripPrefixCh "introductory".data cs1 with
     | none => false
     | some cs2 =>
       match dropSpaces1 cs2 with
       | none => false
       | some cs3 => aprOrInterest cs3)

/-- A match of `offerRegex` starting exactly at the head of `cs`
(lowercased): `(0%|zero percent)\s+(introductory\s+)?(apr|interest)`. -/
def offerHead (cs : List Char) : Bool :=
  (match stripPrefixCh "0%".data cs with
   | some rest => offerTail rest
   | none => false) ||
  (match stripPrefixCh "zero percent".data cs with
   | some rest => offerTail rest
   | none => false)

/-- Unanchored search: `offerRegex.test` succeeds iff a match starts at
some position of the (lowercased) text. -/
def offerSearch : List Char → Bool
  | [] => false
  | c :: cs => offerHead (c :: cs) || offerSearch cs

/-- Embedding of `offerRegex.test s` for
`offerRegex = /(0%|zero percent)\s+(introductory\s+)?(apr|interest)/i`. -/
def offerTest (s : String) : Bool :=
  offerSearch (lowerData s)

/-- Here `containsSub needle hay` means: `needle` occurs as a contiguous sublist of
`hay`. -/
def containsSub (needle : List Char) : List Char → Bool
  | [] => (stripPrefixCh needle []).isSome
  | c :: cs => (stripPrefixCh needle (c :: cs)).isSome || containsSub needle cs

/-- Embedding of `businessRegex.test s` for `businessRegex = /business/i`. -/
def businessTest (s : String) : Bool :=
  containsSub "business".data (lowerData s)

/-- A section satisfies the detector when both indicator tests pass:
`isBusinessCard && hasOffer` in the source loop. -/
def bothTests (s : String) : Bool :=
  businessTest s && offerTest s

/-- The scan loop of `analyzeBankWebsiteForOffers` over the section texts
in document order: return `true` at the first section passing both tests,
`false` when the list is exhausted. -/
def scanLoop : List String → Bool
  | [] => false
  | t :: rest => if bothTests t then true else scanLoop rest

/-- JavaScript `s.split('=')` over a character list: the list of chunks
between occurrences of `'='`.  `"".split('=') = [""]`,
`"=".split('=') = ["", ""]`. -/
def splitOnEq : List Char → List (List Char)
  | [] => [[]]
  | c :: cs =>
    if c = '=' then [] :: splitOnEq cs
    else
      match splitOnEq cs with
      | [] => [[c]]
      | p :: ps => (c :: p) :: ps

/-- JavaScript `arg.startsWith('--bank=')`. -/
def startsWithBankFlag (arg : String) : Bool :=
  (stripPrefixCh "--bank=".data arg.data).isSome

/-- Embedding of `getBankNameFromArgs` over the argv list: find the first argument
starting with `--bank=`, split it on `=`; when more than one part exists
and the part at index 1 is truthy (non-empty), return it, otherwise throw
(modelled as `Except.error`). -/
def getBankNameFromArgs (argv : List String) : Except String String :=
  match argv.find? startsWithBankFlag with
  | some bankNameArg =>
    let parts := splitOnEq bankNameArg.data
    if parts.length > 1 then
      match parts[1]? with
      | some value =>
        if value ≠ [] then .ok (String.mk value)
        else .error "Please provide a valid bank name."
      | none => .error "Please provide a valid bank name."
    else .error "Please provide a valid bank name."
  | none => .error "Please provide a valid bank name."

/-- The observable state of a browser page for the offer detector: its
current URL and, for the card/offer structural selector
`div[class*="card"], section[class*="offer"]`, whether a matching element
appears within the 10-second wait and the visible texts of all matching
sections in document order. -/
structure PageState where
  url : String
  sections : List String
  sectionsAppear : Bool
deriving DecidableEq, Repr

/-- The verdict record returned by `analyzeBankWebsiteForOffers`:
`{ hasOffer: boolean, sourceUrl: string }` (the spec calls the fields
`found` / `analyzedUrl`). -/
structure OfferVerdict where
  hasOffer : Bool
  sourceUrl : String
deriving DecidableEq, Repr

/-- Environment for one `analyzeBankWebsiteForOffers` run: whether the
initial `page.goto` succeeds within its 20-second bound, the page state it
produces, and the three optional best-effort clicks as partial page
transformers — `none` models the caught failure (no such control, not
interactable, or 5-second timeout), `some s` the page state after a
successful click. -/
structure DetectEnv where
  gotoOk : Bool
  initial : PageState
  cookieClick : PageState → Option PageState
  businessClick : PageState → Option PageState
  creditCardClick : PageState → Option PageState

/-- Page state after the cookie-consent attempt: the `try`/`catch` keeps
the current page when the click fails. -/
def afterCookie (env : DetectEnv) : PageState :=
  (env.cookieClick env.initial).getD env.initial

/-- Page state after the optional business-section / credit-card two-hop
navigation: both hops live in one `try`, so a failed first hop keeps the
pre-hop page, and a failed second hop keeps the page reached by the first
hop. -/
def stateAfterOptional (env : DetectEnv) : PageState :=
  let s1 := afterCookie env
  match env.businessClick s1 with
  | none => s1
  | some sb => (env.creditCardClick sb).getD sb

/-- Embedding of `analyzeBankWebsiteForOffers(page, bankUrl)`: navigate (fallible,
uncaught), run the optional steps, record `finalUrl = page.url()`, wait
for the structural selector (caught: timeout returns
`{hasOffer: false, sourceUrl: finalUrl}`), then scan every matching
section, returning `true` at the first one passing both regex tests. -/
def analyzeBankWebsiteForOffers (env : DetectEnv) (bankUrl : String) :
    Except Unit OfferVerdict :=
  if env.gotoOk then
    let s := stateAfterOptional env
    let finalUrl := s.url
    if s.sectionsAppear then
      .ok { hasOffer := scanLoop s.sections, sourceUrl := finalUrl }
    else
      .ok { hasOffer := false, sourceUrl := finalUrl }
  else
    .error ()

/-- Environment for one `findBankWebsiteOnFDIC` run, one field per
external interaction in source order.  A `false` / `none` on a required
step models the corresponding wait or action timing out, which throws
uncaught. -/
structure ResolverEnv where
  searchPageOk : Bool
  fillOk : Bool
  searchClickOk : Bool
  firstResultAppears : Bool
  primaryLinkCount : Nat
  linkClickOk : Bool
  modalAppears : Bool
  spawnedPage : Option String
  newPageLoads : Bool

/-- Embedding of `findBankWebsiteOnFDIC(page, bankName)`: every required wait that
fails throws (`Except.error`); a first result with zero primary-website
links returns `null` (`Except.ok none`); otherwise the modal's continue
click is raced against the new-page event and the new page's URL is
returned once it loads. -/
def findBankWebsiteOnFDIC (env : ResolverEnv) (bankName : String) :
    Except Unit (Option String) :=
  if !env.searchPageOk then .error () else
  if !env.fillOk then .error () else
  if !env.searchClickOk then .error () else
  if !env.firstResultAppears then .error () else
  if env.primaryLinkCount = 0 then .ok none else
  if !env.linkClickOk then .error () else
  if !env.modalAppears then .error () else
  match env.spawnedPage with
  | none => .error ()
  | some url => if env.newPageLoads then .ok (some url) else .error ()

/-- Observable events of a run of the main module, in the order the
source performs them. -/
inductive RunEvent where
  | browserLaunch
  | contextCreated
  | pageCreated
  | resolverReturned
  | detectorReturned
  | errorLogged
  | browserClosed
deriving DecidableEq, Repr

/-- The main module of `part_000`: `chromium.launch` first, then a
`try` block (parse args, create context and page, resolve, and — when a
website was found — create a second page and analyze it), a `catch` that
logs any error, and a `finally` that closes the browser.  Returns the
event trace and the process exit status (no path rethrows or calls
`process.exit`, so termination is normal). -/
def runMain (argv : List String) (renv : ResolverEnv) (denv : DetectEnv) :
    List RunEvent × Nat :=
  let launched := [RunEvent.browserLaunch]
  match getBankNameFromArgs argv with
  | .error _ => (launched ++ [RunEvent.errorLogged, RunEvent.browserClosed], 0)
  | .ok bankName =>
    let pre := launched ++ [RunEvent.contextCreated, RunEvent.pageCreated]
    match findBankWebsiteOnFDIC renv bankName with
    | .error _ => (pre ++ [RunEvent.errorLogged, RunEvent.browserClosed], 0)
    | .ok none => (pre ++ [RunEvent.resolverReturned, RunEvent.browserClosed], 0)
    | .ok (some officialWebsite) =>
      let mid := pre ++ [RunEvent.resolverReturned, RunEvent.pageCreated]
      match analyzeBankWebsiteForOffers denv officialWebsite with
      | .error _ => (mid ++ [RunEvent.errorLogged, RunEvent.browserClosed], 0)
      | .ok _ => (mid ++ [RunEvent.detectorReturned, RunEvent.browserClosed], 0)

/-- A resolver environment in which every external interaction succeeds
and the first result has one primary-website link. -/
def sampleResolverEnv : ResolverEnv :=
  { searchPageOk := true, fillOk := true, searchClickOk := true,
    firstResultAppears := true, primaryLinkCount := 1, linkClickOk := true,
    modalAppears := true, spawnedPage := some "https://examplebank.com",
    newPageLoads := true }

/-- A resolver environment whose first result has zero primary-website
links. -/
def zeroLinkResolverEnv : ResolverEnv :=
  { sampleResolverEnv with primaryLinkCount := 0 }

/-- A resolver environment in which the continue-navigation click never
spawns a new page (the new-page wait times out). -/
def noSpawnResolverEnv : ResolverEnv :=
  { sampleResolverEnv with spawnedPage := none }

/-- A static page whose card/offer sections appear within the wait
bound. -/
def staticPage (url : String) (sections : List String) : PageState :=
  { url := url, sections := sections, sectionsAppear := true }

/-- A detector environment over a static page: navigation succeeds and
all three optional clicks fail (and are swallowed), so the analyzed page
is the initial one. -/
def staticDetectEnv (url : String) (sections : List String) : DetectEnv :=
  { gotoOk := true, initial := staticPage url sections,
    cookieClick := fun _ => none, businessClick := fun _ => none,
    creditCardClick := fun _ => none }

/-- A detector environment over a page on which no element matching the
card/offer structural selector appears within the wait bound. -/
def noSectionsDetectEnv (url : String) : DetectEnv :=
  { staticDetectEnv url [] with
    initial := { url := url, sections := [], sectionsAppear := false } }

/-! ## Supporting lemmas -/

theorem stripPrefixCh_append (p cs : List Char) :
    stripPrefixCh p (p ++ cs) = some cs := by
  induction p with
  | nil => rfl
  | cons c ps ih => simp [stripPrefixCh, ih]

theorem scanLoop_eq_true_iff (l : List String) :
    scanLoop l = true ↔ ∃ t ∈ l, bothTests t = true := by
  induction l with
  | nil => simp [scanLoop]
  | cons t rest ih =>
    by_cases h : bothTests t = true
    · simp [scanLoop, h]
    · simp [scanLoop, h, ih]

theorem scanLoop_append_of_both (pre : List String) {t : String}
    (post : List String) (h : bothTests t = true) :
    scanLoop (pre ++ t :: post) = true := by
  induction pre with
  | nil => simp [scanLoop, h]
  | cons u us ih =>
    by_cases hu : bothTests u = true
    · simp [scanLoop, hu]
    · simp [scanLoop, hu, ih]

theorem dropWhile_space_append (w : List Char) (c : Char) (rest : List Char)
    (hw : ∀ x ∈ w, isSpaceChar x = true) (hc : isSpaceChar c = false) :
    (w ++ c :: rest).dropWhile isSpaceChar = c :: rest := by
  induction w with
  | nil => simp [List.dropWhile, hc]
  | cons y ys ih =>
    have hy : isSpaceChar y = true := hw y (by simp)
    simp only [List.cons_append, List.dropWhile_cons, hy, if_true]
    exact ih (fun x hx => hw x (by simp [hx]))

theorem dropSpaces1_space_append (w : List Char) (c : Char) (rest : List Char)
    (hw : ∀ x ∈ w, isSpaceChar x = true) (hwne : w ≠ [])
    (hc : isSpaceChar c = false) :
    dropSpaces1 (w ++ c :: rest) = some (c :: rest) := by
  cases w with
  | nil => exact absurd rfl hwne
  | cons y ys =>
    have hy : isSpaceChar y = true := hw y (by simp)
    simp [dropSpaces1, hy,
      dropWhile_space_append ys c rest (fun x hx => hw x (by simp [hx])) hc]

theorem offerTail_of_space_then_match (w : List Char) (c : Char)
    (cs : List Char) (hw : ∀ x ∈ w, isSpaceChar x = true) (hwne : w ≠ [])
    (hc : isSpaceChar c = false) (hm : aprOrInterest (c :: cs) = true) :
    offerTail (w ++ c :: cs) = true := by
  simp [offerTail, dropSpaces1_space_append w c cs hw hwne hc, hm]

theorem offerHead_of_parts (w : List Char) (c : Char) (cs : List Char)
    (hw : ∀ x ∈ w, isSpaceChar x = true) (hwne : w ≠ [])
    (hc : isSpaceChar c = false) (hm : aprOrInterest (c :: cs) = true) :
    offerHead ("0%".data ++ (w ++ c :: cs)) = true := by
  unfold offerHead
  rw [stripPrefixCh_append]
  simp [offerTail_of_space_then_match w c cs hw hwne hc hm]

theorem offerSearch_of_head (cs : List Char) (h : offerHead cs = true) :
    offerSearch cs = true := by
  cases cs with
  | nil => exact absurd h (by decide)
  | cons c l => simp [offerSearch, h]

theorem offerSearch_suffix (pre cs : List Char) (h : offerSearch cs = true) :
    offerSearch (pre ++ cs) = true := by
  induction pre with
  | nil => simpa using h
  | cons c l ih => simp [offerSearch, ih]

theorem asciiLower_space (c : Char) (h : isSpaceChar c = true) :
    asciiLower c = c := by
  have hn : ¬(0x41 ≤ c.toNat ∧ c.toNat ≤ 0x5a) := by
    simp [isSpaceChar] at h
    omega
  simp [asciiLower, hn]

theorem lowerData_space (w : String) (hw : ∀ x ∈ w.data, isSpaceChar x = true) :
    ∀ x ∈ lowerData w, isSpaceChar x = true := by
  intro x hx
  simp [lowerData] at hx
  obtain ⟨y, hy, rfl⟩ := hx
  rw [asciiLower_space y (hw y hy)]
  exact hw y hy

theorem lowerData_append (a b : String) :
    lowerData (a ++ b) = lowerData a ++ lowerData b := by
  simp [lowerData]

theorem data_ne_nil_of_ne_empty (s : String) (h : s ≠ "") : s.data ≠ [] := by
  intro hd
  exact h (congrArg String.mk hd)

theorem find?_append_of_first (pre : List String) (x : String)
    (post : List String)
    (hpre : ∀ a ∈ pre, startsWithBankFlag a = false)
    (hx : startsWithBankFlag x = true) :
    (pre ++ x :: post).find? startsWithBankFlag = some x := by
  induction pre with
  | nil => simp [List.find?_cons, hx]
  | cons a as ih =>
    have ha : startsWithBankFlag a = false := hpre a (by simp)
    simp only [List.cons_append, List.find?_cons, ha]
    exact ih (fun b hb => hpre b (by simp [hb]))

theorem splitOnEq_no_eq_append (v1 v2 : List Char) (h : '=' ∉ v1) :
    splitOnEq (v1 ++ '=' :: v2) = v1 :: splitOnEq v2 := by
  induction v1 with
  | nil => simp [splitOnEq]
  | cons c cs ih =>
    have hc : ¬(c = '=') := fun hh => h (by simp [hh])
    have hrec := ih (fun hh => h (by simp [hh]))
    simp [splitOnEq, hc, hrec]

/-! ## Claims -/

/-- C2: the promotional-APR pattern
`/(0%|zero percent)\s+(introductory\s+)?(apr|interest)/i` matches
"0% Introductory APR", "0% interest" and "zero percent APR",
case-insensitively and also inside longer section text, and matches
neither "15% APR" nor "Business Rewards Card" on its own. -/
theorem offerRegex_spec_examples :
    offerTest "0% Introductory APR" = true ∧
    offerTest "0% interest" = true ∧
    offerTest "zero percent APR" = true ∧
    offerTest "Enjoy 0% INTRODUCTORY apr on all purchases" = true ∧
    offerTest "limited time: ZERO PERCENT Interest offer" = true ∧
    offerTest "15% APR" = false ∧
    offerTest "Business Rewards Card" = false := by decide

/-- C1: once the detector has navigated and the structural wait has
succeeded, the verdict is `hasOffer = true` iff some scanned section's
text passes both the business indicator and the promotional-APR
indicator; the verdict comes from the first section in document order
passing both and the scan stops there (sections after the first match
cannot change the scan's result); a list in which every section fails at
least one of the two tests yields `hasOffer = false`. -/
theorem detector_conjunction_first_match (env : DetectEnv) (bankUrl : String)
    (hg : env.gotoOk = true)
    (hs : (stateAfterOptional env).sectionsAppear = true) :
    (analyzeBankWebsiteForOffers env bankUrl =
        .ok ⟨true, (stateAfterOptional env).url⟩ ↔
      ∃ t ∈ (stateAfterOptional env).sections, bothTests t = true) ∧
    (∀ pre t post, (stateAfterOptional env).sections = pre ++ t :: post →
      bothTests t = true →
      analyzeBankWebsiteForOffers env bankUrl =
        .ok ⟨true, (stateAfterOptional env).url⟩ ∧
      scanLoop (pre ++ t :: post) = scanLoop (pre ++ [t])) ∧
    ((∀ t ∈ (stateAfterOptional env).sections,
        businessTest t = false ∨ offerTest t = false) →
      analyzeBankWebsiteForOffers env bankUrl =
        .ok ⟨false, (stateAfterOptional env).url⟩) := by
  have hval : analyzeBankWebsiteForOffers env bankUrl =
      .ok ⟨scanLoop (stateAfterOptional env).sections,
           (stateAfterOptional env).url⟩ := by
    simp [analyzeBankWebsiteForOffers, hg, hs]
  refine ⟨?_, ?_, ?_⟩
  · rw [hval]
    simp [scanLoop_eq_true_iff]
  · intro pre t post hsecs hboth
    refine ⟨?_, ?_⟩
    · rw [hval, hsecs, scanLoop_append_of_both pre post hboth]
    · rw [scanLoop_append_of_both pre post hboth,
        scanLoop_append_of_both pre [] hboth]
  · intro hnone
    rw [hval]
    cases hsl : scanLoop (stateAfterOptional env).sections with
    | false => rfl
    | true =>
      exfalso
      obtain ⟨t, ht, hb⟩ := (scanLoop_eq_true_iff _).mp hsl
      rcases hnone t ht with h | h <;> simp [bothTests, h] at hb

/-- Witness for C1 at a one-section page whose text passes both tests. -/
theorem detector_conjunction_first_match_witness :
    analyzeBankWebsiteForOffers
        (staticDetectEnv "https://examplebank.com" ["Business 0% APR offer"])
        "https://examplebank.com" =
      .ok ⟨true, "https://examplebank.com"⟩ :=
  ((detector_conjunction_first_match
      (staticDetectEnv "https://examplebank.com" ["Business 0% APR offer"])
      "https://examplebank.com" rfl rfl).1).mpr
    ⟨"Business 0% APR offer", by decide, by decide⟩

/-- C4: once navigation has succeeded, the detector always returns a
verdict whose `sourceUrl` is the page URL recorded after the optional
cookie/business/credit-card steps, on every path; in particular a
structural-wait timeout yields `{hasOffer := false}` with that URL, not
an error. -/
theorem detector_always_returns_verdict (env : DetectEnv) (bankUrl : String)
    (hg : env.gotoOk = true) :
    (∃ v : OfferVerdict, analyzeBankWebsiteForOffers env bankUrl = .ok v ∧
      v.sourceUrl = (stateAfterOptional env).url) ∧
    ((stateAfterOptional env).sectionsAppear = false →
      analyzeBankWebsiteForOffers env bankUrl =
        .ok { hasOffer := false, sourceUrl := (stateAfterOptional env).url }) := by
  constructor
  · cases hs : (stateAfterOptional env).sectionsAppear
    · exact ⟨{ hasOffer := false, sourceUrl := (stateAfterOptional env).url },
        by simp [analyzeBankWebsiteForOffers, hg, hs], rfl⟩
    · exact ⟨{ hasOffer := scanLoop (stateAfterOptional env).sections,
               sourceUrl := (stateAfterOptional env).url },
        by simp [analyzeBankWebsiteForOffers, hg, hs], rfl⟩
  · intro hs
    simp [analyzeBankWebsiteForOffers, hg, hs]

/-- Witness for C4: a page with no card/offer structure yields the
negative verdict carrying the analyzed URL. -/
theorem detector_always_returns_verdict_witness :
    analyzeBankWebsiteForOffers (noSectionsDetectEnv "https://examplebank.com")
        "https://examplebank.com" =
      .ok { hasOffer := false, sourceUrl := "https://examplebank.com" } :=
  (detector_always_returns_verdict (noSectionsDetectEnv "https://examplebank.com")
    "https://examplebank.com" rfl).2 rfl

/-- C6: the optional steps are best-effort: a failed cookie click keeps
the initial page, a failed first hop keeps the pre-hop page, a failed
second hop keeps the page reached by the succeeded first hop, and none of
these failures makes `analyzeBankWebsiteForOffers` raise once navigation
succeeded. -/
theorem optional_steps_swallow_failures (env : DetectEnv) (bankUrl : String) :
    (env.cookieClick env.initial = none → afterCookie env = env.initial) ∧
    (env.businessClick (afterCookie env) = none →
      stateAfterOptional env = afterCookie env) ∧
    (∀ sb, env.businessClick (afterCookie env) = some sb →
      env.creditCardClick sb = none → stateAfterOptional env = sb) ∧
    (env.gotoOk = true →
      ∃ v : OfferVerdict, analyzeBankWebsiteForOffers env bankUrl = .ok v) := by
  refine ⟨?_, ?_, ?_, ?_⟩
  · intro h
    simp [afterCookie, h]
  · intro h
    simp [stateAfterOptional, h]
  · intro sb h1 h2
    simp [stateAfterOptional, h1, h2]
  · intro hg
    cases hs : (stateAfterOptional env).sectionsAppear
    · exact ⟨{ hasOffer := false, sourceUrl := (stateAfterOptional env).url },
        by simp [analyzeBankWebsiteForOffers, hg, hs]⟩
    · exact ⟨{ hasOffer := scanLoop (stateAfterOptional env).sections,
               sourceUrl := (stateAfterOptional env).url },
        by simp [analyzeBankWebsiteForOffers, hg, hs]⟩

/-- Witness for C6: with a failing cookie click, analysis proceeds on the
initial page. -/
theorem optional_steps_swallow_failures_witness :
    afterCookie (staticDetectEnv "https://examplebank.com" []) =
      (staticDetectEnv "https://examplebank.com" []).initial :=
  (optional_steps_swallow_failures (staticDetectEnv "https://examplebank.com" [])
    "https://examplebank.com").1 rfl

/-- C8: the detector is deterministic over static page content: two runs
against the same URL with identical page behavior (same navigation
outcome, same initial page, same optional-click behavior) produce equal
verdicts. -/
theorem detector_deterministic (e₁ e₂ : DetectEnv) (url : String)
    (hg : e₁.gotoOk = e₂.gotoOk) (hi : e₁.initial = e₂.initial)
    (hc : e₁.cookieClick = e₂.cookieClick)
    (hb : e₁.businessClick = e₂.businessClick)
    (hcc : e₁.creditCardClick = e₂.creditCardClick) :
    analyzeBankWebsiteForOffers e₁ url = analyzeBankWebsiteForOffers e₂ url := by
  have he : e₁ = e₂ := by
    cases e₁
    cases e₂
    simp_all
  rw [he]

/-- Witness for C8 at a concrete static page. -/
theorem detector_deterministic_witness :
    analyzeBankWebsiteForOffers
        (staticDetectEnv "https://examplebank.com" ["Business 0% APR offer"])
        "https://examplebank.com" =
      analyzeBankWebsiteForOffers
        (staticDetectEnv "https://examplebank.com" ["Business 0% APR offer"])
        "https://examplebank.com" :=
  detector_deterministic _ _ "https://examplebank.com" rfl rfl rfl rfl rfl

/-- C5: when the search succeeds but the first result has zero
primary-website links, the resolver returns the absent value
(`Except.ok none`) and does not raise. -/
theorem resolver_zero_links_absent (env : ResolverEnv) (bankName : String)
    (h1 : env.searchPageOk = true) (h2 : env.fillOk = true)
    (h3 : env.searchClickOk = true) (h4 : env.firstResultAppears = true)
    (h5 : env.primaryLinkCount = 0) :
    findBankWebsiteOnFDIC env bankName = .ok none ∧
    findBankWebsiteOnFDIC env bankName ≠ .error () := by
  have hok : findBankWebsiteOnFDIC env bankName = .ok none := by
    simp [findBankWebsiteOnFDIC, h1, h2, h3, h4, h5]
  exact ⟨hok, by simp [hok]⟩

/-- Witness for C5 at a concrete zero-link environment. -/
theorem resolver_zero_links_absent_witness :
    findBankWebsiteOnFDIC zeroLinkResolverEnv "Example Bank" = .ok none :=
  (resolver_zero_links_absent zeroLinkResolverEnv "Example Bank"
    rfl rfl rfl rfl rfl).1

/-- C7: on every execution path of the run — normal completion,
configuration error, resolver returning absent, or a fatal navigation
timeout in either component — `browser.close` runs exactly once and is
the last event before the run ends; in particular, when the
continue-navigation click fails to spawn a new page within its wait
bound, the error propagates to the top level, is logged there, and the
session is still released. -/
theorem browser_closed_exactly_once (argv : List String) (renv : ResolverEnv)
    (denv : DetectEnv) :
    ((runMain argv renv denv).1.count RunEvent.browserClosed = 1 ∧
      (runMain argv renv denv).1.getLast? = some RunEvent.browserClosed) ∧
    (∀ bankName, getBankNameFromArgs argv = .ok bankName →
      renv.searchPageOk = true → renv.fillOk = true →
      renv.searchClickOk = true → renv.firstResultAppears = true →
      renv.primaryLinkCount ≠ 0 → renv.linkClickOk = true →
      renv.modalAppears = true → renv.spawnedPage = none →
      RunEvent.errorLogged ∈ (runMain argv renv denv).1 ∧
      (runMain argv renv denv).1.count RunEvent.browserClosed = 1) := by
  have hclose : (runMain argv renv denv).1.count RunEvent.browserClosed = 1 ∧
      (runMain argv renv denv).1.getLast? = some RunEvent.browserClosed := by
    cases hb : getBankNameFromArgs argv with
    | error msg => simp [runMain, hb]
    | ok bankName =>
      cases hr : findBankWebsiteOnFDIC renv bankName with
      | error e =>
        simp [runMain, hb, hr]
      | ok w =>
        cases w with
        | none => simp [runMain, hb, hr]
        | some url =>
          cases ha : analyzeBankWebsiteForOffers denv url with
          | error e => simp [runMain, hb, hr, ha]
          | ok v => simp [runMain, hb, hr, ha]
  refine ⟨hclose, ?_⟩
  intro bankName hb h1 h2 h3 h4 h5 h6 h7 hspawn
  have hr : findBankWebsiteOnFDIC renv bankName = .error () := by
    simp [findBankWebsiteOnFDIC, h1, h2, h3, h4, h5, h6, h7, hspawn]
  refine ⟨?_, hclose.1⟩
  simp [runMain, hb, hr]

/-- Witness for C7: a run whose continue-navigation click spawns no page
still logs the error (and, by the main theorem, closes the browser). -/
theorem browser_closed_exactly_once_witness :
    RunEvent.errorLogged ∈
      (runMain ["node", "scrape.ts", "--bank=Example Bank"] noSpawnResolverEnv
        (staticDetectEnv "https://examplebank.com" [])).1 :=
  ((browser_closed_exactly_once ["node", "scrape.ts", "--bank=Example Bank"]
      noSpawnResolverEnv (staticDetectEnv "https://examplebank.com" [])).2
    "Example Bank" rfl rfl rfl rfl rfl (by decide) rfl rfl rfl).1

/-- C3 as stated is false on the code: with no `--bank` flag the browser
is launched before the argument check runs, and the configuration error
is caught by the top-level `catch`, so the process terminates normally
with exit status `0`, not a non-zero status. -/
theorem config_error_counterexample :
    (runMain ["node", "scrape.ts"] sampleResolverEnv
        (staticDetectEnv "https://examplebank.com" [])).2 = 0 ∧
    (runMain ["node", "scrape.ts"] sampleResolverEnv
        (staticDetectEnv "https://examplebank.com" [])).1 =
      [RunEvent.browserLaunch, RunEvent.errorLogged, RunEvent.browserClosed] :=
  ⟨rfl, rfl⟩

/-- C3 (amended): when the `--bank` flag is absent or empty, the run
fails as a configuration error detected after the browser launch but
before any browser context or page is created and before any navigation;
the error is caught and reported at the top level, the browser is closed,
and the process exits with status `0`. -/
theorem config_error_after_launch (argv : List String) (renv : ResolverEnv)
    (denv : DetectEnv) (msg : String)
    (h : getBankNameFromArgs argv = .error msg) :
    runMain argv renv denv =
      ([RunEvent.browserLaunch, RunEvent.errorLogged, RunEvent.browserClosed],
        0) := by
  simp [runMain, h]

/-- Witness for the amended C3 at an argv without a `--bank` flag. -/
theorem config_error_after_launch_witness :
    runMain ["node", "scrape.ts"] sampleResolverEnv
        (staticDetectEnv "https://examplebank.com" []) =
      ([RunEvent.browserLaunch, RunEvent.errorLogged, RunEvent.browserClosed],
        0) :=
  config_error_after_launch ["node", "scrape.ts"] sampleResolverEnv
    (staticDetectEnv "https://examplebank.com" [])
    "Please provide a valid bank name." rfl

/-- C9: the promotional-APR indicator matches by substring, so any
section text in which the characters "0%" occur — including as the tail
of a larger number — followed by whitespace and "apr" or "interest"
passes the offer test; in particular the section text
"Business card at 20% APR" passes both indicators and the detector
returns `hasOffer = true` on a page containing it, although it
advertises no zero-percent offer. -/
theorem offer_substring_false_positive (a w tail b : String)
    (hw : ∀ c ∈ w.data, isSpaceChar c = true) (hwne : w ≠ "")
    (htail : tail = "apr" ∨ tail = "interest") :
    offerTest (a ++ "0%" ++ w ++ tail ++ b) = true ∧
    bothTests "Business card at 20% APR" = true ∧
    analyzeBankWebsiteForOffers
        (staticDetectEnv "https://examplebank.com" ["Business card at 20% APR"])
        "https://examplebank.com" =
      .ok { hasOffer := true, sourceUrl := "https://examplebank.com" } := by
  refine ⟨?_, by decide, rfl⟩
  have hlw : ∀ x ∈ lowerData w, isSpaceChar x = true := lowerData_space w hw
  have hlwne : lowerData w ≠ [] := by
    simp only [lowerData, ne_eq, List.map_eq_nil_iff]
    exact data_ne_nil_of_ne_empty w hwne
  obtain rfl | rfl := htail
  · unfold offerTest
    rw [lowerData_append, lowerData_append, lowerData_append, lowerData_append]
    have h0 : lowerData "0%" = "0%".data := rfl
    have hapr : lowerData "apr" = "apr".data := rfl
    rw [h0, hapr]
    simp only [List.append_assoc]
    apply offerSearch_suffix
    apply offerSearch_of_head
    have hshape : "apr".data ++ lowerData b = 'a' :: ("pr".data ++ lowerData b) := rfl
    rw [hshape]
    refine offerHead_of_parts (lowerData w) 'a' ("pr".data ++ lowerData b)
      hlw hlwne (by decide) ?_
    show aprOrInterest ("apr".data ++ lowerData b) = true
    unfold aprOrInterest
    rw [stripPrefixCh_append]
    simp
  · unfold offerTest
    rw [lowerData_append, lowerData_append, lowerData_append, lowerData_append]
    have h0 : lowerData "0%" = "0%".data := rfl
    have hint : lowerData "interest" = "interest".data := rfl
    rw [h0, hint]
    simp only [List.append_assoc]
    apply offerSearch_suffix
    apply offerSearch_of_head
    have hshape : "interest".data ++ lowerData b =
        'i' :: ("nterest".data ++ lowerData b) := rfl
    rw [hshape]
    refine offerHead_of_parts (lowerData w) 'i' ("nterest".data ++ lowerData b)
      hlw hlwne (by decide) ?_
    show aprOrInterest ("interest".data ++ lowerData b) = true
    unfold aprOrInterest
    rw [stripPrefixCh_append]
    simp

/-- Witness for C9 at a = "Business card at 2", w = " ", tail = "apr",
b = "": the text "Business card at 20% apr" passes the offer test. -/
theorem offer_substring_false_positive_witness :
    offerTest ("Business card at 2" ++ "0%" ++ " " ++ "apr" ++ "") = true :=
  (offer_substring_false_positive "Business card at 2" " " "apr" ""
    (by decide) (by decide) (Or.inl rfl)).1

/-- C10 as stated is false on the code at the argument "--bank==National"
(value "=National", whose portion before its first "=" is empty): instead
of returning that empty portion, `getBankNameFromArgs` rejects it as
falsy and throws the configuration error. -/
theorem bank_flag_empty_prefix_counterexample :
    getBankNameFromArgs ["node", "scrape.ts", "--bank==National"] =
      .error "Please provide a valid bank name." ∧
    getBankNameFromArgs ["node", "scrape.ts", "--bank==National"] ≠
      .ok "" :=
  ⟨rfl, fun h => Except.noConfusion ((rfl :
    getBankNameFromArgs ["node", "scrape.ts", "--bank==National"] =
      .error "Please provide a valid bank name.").symm.trans h)⟩

/-- C10 (amended): for a `--bank=<v>` argument whose value `<v>` contains
an `=`, the parser keeps only the portion of `<v>` before its first `=`:
when that portion is non-empty it is returned and the rest silently
dropped (the full value is never passed through); when `<v>` starts with
`=`, the empty portion is falsy and the parser throws the configuration
error instead. -/
theorem bank_flag_value_truncated (pre post : List String) (v1 v2 : String)
    (hpre : ∀ a ∈ pre, startsWithBankFlag a = false)
    (hv1 : '=' ∉ v1.data) :
    (v1 ≠ "" →
      getBankNameFromArgs (pre ++ ("--bank=" ++ v1 ++ "=" ++ v2) :: post) =
        .ok v1) ∧
    (v1 = "" →
      getBankNameFromArgs (pre ++ ("--bank=" ++ v1 ++ "=" ++ v2) :: post) =
        .error "Please provide a valid bank name.") := by
  have harg : ("--bank=" ++ v1 ++ "=" ++ v2).data =
      "--bank=".data ++ (v1.data ++ '=' :: v2.data) := by
    simp [String.data_append]
  have hflag : startsWithBankFlag ("--bank=" ++ v1 ++ "=" ++ v2) = true := by
    unfold startsWithBankFlag
    rw [harg, stripPrefixCh_append]
    rfl
  have hfind := find?_append_of_first pre _ post hpre hflag
  have hsplit : splitOnEq ("--bank=" ++ v1 ++ "=" ++ v2).data =
      "--bank".data :: v1.data :: splitOnEq v2.data := by
    rw [harg]
    have h1 : "--bank=".data ++ (v1.data ++ '=' :: v2.data) =
        "--bank".data ++ '=' :: (v1.data ++ '=' :: v2.data) := rfl
    rw [h1, splitOnEq_no_eq_append _ _ (by decide),
      splitOnEq_no_eq_append _ _ hv1]
  constructor
  · intro hne
    have hdne : v1.data ≠ [] := data_ne_nil_of_ne_empty v1 hne
    simp only [getBankNameFromArgs, hfind, hsplit, List.length_cons,
      List.getElem?_cons_succ, List.getElem?_cons_zero]
    rw [if_pos (by omega), if_pos hdne]
  · intro he
    subst he
    simp only [getBankNameFromArgs, hfind, hsplit, List.length_cons,
      List.getElem?_cons_succ, List.getElem?_cons_zero]
    rw [if_pos (by omega)]
    simp

/-- Witness for the amended C10: `--bank=First=National` yields the bank
name "First". -/
theorem bank_flag_value_truncated_witness :
    getBankNameFromArgs [("--bank=" ++ "First" ++ "=" ++ "National")] =
      .ok "First" :=
  (bank_flag_value_truncated [] [] "First" "National" (by simp) (by decide)).1
    (by decide)

end BankTool
